import Mathlib

/-!
# Verification of the resume-analyzer client workflow

Shallow embedding of the client-side logic of the resume-analyzer
single-page application.  The repository contains four variants of the
same page component:

* `page.tsx`, first document  (referred to here as `PageA`): validator
  `handleFile`, gate `canAnalyze`, orchestrator `analyze` with the
  fallback error message "Request failed".
* `page.tsx`, second document (`PageB`): no pick-time validation,
  orchestrator `analyze` with fallback message derived from the HTTP
  status, and the full result renderer (`Card` sections).
* `part_000`, first document  (`Part0A`): validator `handleFile`, gate
  `canAnalyze`, orchestrator that discards the decoded body and reports
  the fixed message "Analyze request failed" on non-ok responses.
* `part_000`, second document (`Part0B`): validator `onPickFile`, gate
  `canAnalyze`, orchestrator like `PageB`, and a reduced renderer that
  shows only the verdict card.

The React component state (`useState` hooks `title`, `description`,
`file`, `result`, `loading`, `error`) is modelled as the structure `St`;
variants that do not declare a `result` hook simply never read or write
that field.  The platform effects awaited by `analyze` (`fetch`,
`res.text()`, `res.json()`) are modelled by the `Outcome` type: a network
failure carries the message of the rejection error, and a response
carries the HTTP status, the body text, and the outcome of JSON-parsing
the body (`Except` error = `res.json()` throwing, with the message of the
thrown `SyntaxError`).
-/

/-- A candidate file reference: the filename and the declared media type
(the `name` and `type` fields of a DOM `File`). -/
structure FileRef where
  name : String
  type : String
deriving DecidableEq

/-- Decoded JSON values, the result of `res.json()`. -/
inductive Json where
  | null
  | bool (b : Bool)
  | num (n : Int)
  | str (s : String)
  | arr (elems : List Json)
  | obj (fields : List (String × Json))

/-- The React component state: the `useState` hooks shared by the page
variants.  `result` holds the raw decoded JSON (the code stores whatever
`res.json()` produced, with no runtime shape validation). -/
structure St where
  title : String
  description : String
  file : Option FileRef
  result : Option Json
  loading : Bool
  error : Option String

/-- One part of a `FormData` body: a text field or an appended file. -/
inductive FormPart where
  | text (value : String)
  | binary (f : FileRef)
deriving DecidableEq

/-- A multipart body, in `FormData.append` order. -/
abbrev FormBody := List (String × FormPart)

/-- The environment-determined outcome of the awaited `fetch` and body
reads inside `analyze`. -/
inductive Outcome where
  | networkError (message : String)
  | response (status : Nat) (bodyText : String) (json : Except String Json)

/-- ECMAScript whitespace (the characters stripped by
`String.prototype.trim`, common fragment). -/
def isJsWhitespace (c : Char) : Bool :=
  c = ' ' || c = '\t' || c = '\n' || c = '\r'

/-- Model of the platform primitive `String.prototype.trim`: strips
leading and trailing whitespace.  Defined over the character list so
that it evaluates inside the kernel. -/
def jsTrim (s : String) : String :=
  ⟨((s.data.dropWhile isJsWhitespace).reverse.dropWhile isJsWhitespace).reverse⟩

/-- Model of the platform primitive `String.prototype.toLowerCase`
(ASCII case mapping). -/
def jsToLower (s : String) : String :=
  ⟨s.data.map Char.toLower⟩

/-- Model of the platform primitive `String.prototype.endsWith`. -/
def jsEndsWith (s suffix : String) : Bool :=
  suffix.data.isSuffixOf s.data

/-- Platform semantics of `Response.ok`: status in the range 200-299. -/
def isOk (status : Nat) : Bool :=
  decide (200 ≤ status ∧ status < 300)

/-- Gate `canAnalyze` (page.tsx lines 37-40; part_000 lines 22-25 and
440-443, identical in the three variants that declare it):
`title.trim().length > 0 && file !== null && !loading`. -/
def canAnalyze (s : St) : Bool :=
  decide (0 < (jsTrim s.title).length) && s.file.isSome && !s.loading

/-- Validator `handleFile` (page.tsx lines 75-91; part_000 lines 27-46,
identical logic): a null candidate clears the selection; a candidate
whose type is not exactly "application/pdf" and whose lowercased name
does not end in ".pdf" is rejected with a fixed message, leaving the
previous selection untouched; otherwise the error is cleared and the
candidate is stored. -/
def handleFile (s : St) (f : Option FileRef) : St :=
  match f with
  | none => { s with file := none }
  | some f =>
    if f.type != "application/pdf" && !(jsEndsWith (jsToLower f.name) ".pdf") then
      { s with error := some "Please upload a PDF file." }
    else
      { s with error := none, file := some f }

/-- Validator `onPickFile` (part_000 lines 452-463): clears the error
first, then behaves like `handleFile` with its own rejection message. -/
def onPickFile (s : St) (f : Option FileRef) : St :=
  let s := { s with error := none }
  match f with
  | none => { s with file := none }
  | some f =>
    if f.type != "application/pdf" && !(jsEndsWith (jsToLower f.name) ".pdf") then
      { s with error := some "Please select a PDF file." }
    else
      { s with file := some f }

/-- The observable effect of one call of `analyze`: the multipart request
issued (`none` when the call returned without fetching), the state at
the moment the request was issued (equal to the pre-state when no
request was issued), and the state after the call resolved. -/
structure AnalyzeRun where
  request : Option FormBody
  inflight : St
  final : St

/-- Orchestrator `analyze` of the first `page.tsx` variant (lines 42-73).
Gate first; then `setError(null); setResult(null)`; build the form body;
`setLoading(true)`; fetch.  A non-ok response throws
`Error(msg || "Request failed")` where `msg` is the body text; an ok
response stores the decoded JSON; a rejected fetch or a failed
`res.json()` reaches the catch, which stores the error message; the
finally block sets `loading` to false. -/
def analyzePageA (s : St) (out : Outcome) : AnalyzeRun :=
  if !canAnalyze s then { request := none, inflight := s, final := s }
  else
    let s1 : St := { s with error := none, result := none }
    match s1.file with
    | none => { request := none, inflight := s1, final := s1 }
    | some f =>
      let fd : FormBody :=
        [("position_title", FormPart.text (jsTrim s1.title)),
         ("position_description", FormPart.text s1.description),
         ("cv_pdf", FormPart.binary f)]
      let s2 : St := { s1 with loading := true }
      let s3 : St :=
        match out with
        | .networkError msg => { s2 with error := some msg }
        | .response status body json =>
          if !isOk status then
            { s2 with error := some (if body == "" then "Request failed" else body) }
          else
            match json with
            | .ok v => { s2 with result := some v }
            | .error msg => { s2 with error := some msg }
      { request := some fd, inflight := s2, final := { s3 with loading := false } }

/-- Orchestrator `analyze` of the second `page.tsx` variant
(lines 493-527).  No gate: it first clears the error and the result,
then checks `!title.trim() || !file` and reports
"Position title and PDF required" without fetching; otherwise it
proceeds like the first variant, with the non-ok fallback message
`HTTP <status>` instead of "Request failed". -/
def analyzePageB (s : St) (out : Outcome) : AnalyzeRun :=
  let s0 : St := { s with error := none, result := none }
  if jsTrim s0.title == "" || s0.file.isNone then
    let s1 : St := { s0 with error := some "Position title and PDF required" }
    { request := none, inflight := s1, final := s1 }
  else
    match s0.file with
    | none => { request := none, inflight := s0, final := s0 }
    | some f =>
      let fd : FormBody :=
        [("position_title", FormPart.text (jsTrim s0.title)),
         ("position_description", FormPart.text s0.description),
         ("cv_pdf", FormPart.binary f)]
      let s2 : St := { s0 with loading := true }
      let s3 : St :=
        match out with
        | .networkError msg => { s2 with error := some msg }
        | .response status body json =>
          if !isOk status then
            { s2 with error := some (if body == "" then "HTTP " ++ toString status else body) }
          else
            match json with
            | .ok v => { s2 with result := some v }
            | .error msg => { s2 with error := some msg }
      { request := some fd, inflight := s2, final := { s3 with loading := false } }

/-- Orchestrator `analyze` of the first `part_000` variant (lines 48-75).
Gate first; `setError(null); setLoading(true)`; build the form body;
fetch.  A non-ok response throws the fixed `Error("Analyze request
failed")` without reading the body; an ok response awaits `res.json()`
and discards the value (this variant declares no `result` hook, so the
`result` field is never touched); a rejected fetch or a failed
`res.json()` stores the error message; finally sets `loading` false. -/
def analyzePart0A (s : St) (out : Outcome) : AnalyzeRun :=
  if !canAnalyze s then { request := none, inflight := s, final := s }
  else
    let s1 : St := { s with error := none }
    let s2 : St := { s1 with loading := true }
    match s2.file with
    | none => { request := none, inflight := s2, final := s2 }
    | some f =>
      let fd : FormBody :=
        [("position_title", FormPart.text (jsTrim s2.title)),
         ("position_description", FormPart.text s2.description),
         ("cv_pdf", FormPart.binary f)]
      let s3 : St :=
        match out with
        | .networkError msg => { s2 with error := some msg }
        | .response status _body json =>
          if !isOk status then
            { s2 with error := some "Analyze request failed" }
          else
            match json with
            | .ok _ => s2
            | .error msg => { s2 with error := some msg }
      { request := some fd, inflight := s2, final := { s3 with loading := false } }

/-- Orchestrator `analyze` of the second `part_000` variant
(lines 465-496).  It clears the error and the result BEFORE checking the
gate, so a gated-out call still erases the previous error and result;
past the gate it behaves like the second `page.tsx` variant. -/
def analyzePart0B (s : St) (out : Outcome) : AnalyzeRun :=
  let s0 : St := { s with error := none, result := none }
  if !canAnalyze s then { request := none, inflight := s0, final := s0 }
  else
    match s0.file with
    | none => { request := none, inflight := s0, final := s0 }
    | some f =>
      let fd : FormBody :=
        [("position_title", FormPart.text (jsTrim s0.title)),
         ("position_description", FormPart.text s0.description),
         ("cv_pdf", FormPart.binary f)]
      let s2 : St := { s0 with loading := true }
      let s3 : St :=
        match out with
        | .networkError msg => { s2 with error := some msg }
        | .response status body json =>
          if !isOk status then
            { s2 with error := some (if body == "" then "HTTP " ++ toString status else body) }
          else
            match json with
            | .ok v => { s2 with result := some v }
            | .error msg => { s2 with error := some msg }
      { request := some fd, inflight := s2, final := { s3 with loading := false } }

/-- The `fit_level` union of the `AiResult` TypeScript type. -/
inductive FitLevel where
  | Strong
  | Medium
  | Low
deriving DecidableEq

/-- Badge label text of a fit level. -/
def FitLevel.label : FitLevel → String
  | .Strong => "Strong"
  | .Medium => "Medium"
  | .Low => "Low"

/-- The `confidence` union of the `AiResult` TypeScript type. -/
inductive Confidence where
  | High
  | Medium
  | Low
deriving DecidableEq

/-- Badge label text of a confidence level. -/
def Confidence.label : Confidence → String
  | .High => "High"
  | .Medium => "Medium"
  | .Low => "Low"

/-- The `screening_recommendation` union of the `AiResult` type. -/
inductive ScreeningRecommendation where
  | proceedToTechnicalInterview
  | recruiterScreenOnly
  | rejectCandidate
deriving DecidableEq

/-- Badge label text of a screening recommendation. -/
def ScreeningRecommendation.label : ScreeningRecommendation → String
  | .proceedToTechnicalInterview => "Proceed to technical interview"
  | .recruiterScreenOnly => "Recruiter screen only"
  | .rejectCandidate => "Reject"

/-- An evidence item: a claim and its supporting snippet. -/
structure EvidenceItem where
  claim : String
  snippet : String
deriving DecidableEq

/-- The `AiResult` TypeScript type (page.tsx lines 358-382; part_000
lines 310-333): the analysis service response contract. -/
structure AiResult where
  fit_level : FitLevel
  suitable : Bool
  confidence : Confidence
  summary : String
  matched_required_skills : List String
  missing_required_skills : List String
  matched_nice_to_have : List String
  missing_nice_to_have : List String
  risk_flags : List String
  evidence : List EvidenceItem
  screening_recommendation : ScreeningRecommendation
  interview_focus_areas : List String
  final_verdict : String
  final_why : List String
deriving DecidableEq

/-- Badge tones of the `Badge` component. -/
inductive Tone where
  | neutral
  | good
  | warn
  | bad
deriving DecidableEq

/-- The `fitTone` derivation (page.tsx lines 486-491; part_000 lines
445-450): maps the fit level of the current result to a tone. -/
def fitTone (result : Option AiResult) : Tone :=
  match result with
  | none => .neutral
  | some r =>
    match r.fit_level with
    | .Strong => .good
    | .Medium => .warn
    | .Low => .bad

/-- One rendered block inside a card: a badge, a bold sub-heading, a
paragraph of text, a bullet list of strings, or a bullet list of
evidence items. -/
inductive Block where
  | badge (label : String) (tone : Tone)
  | heading (t : String)
  | para (t : String)
  | strList (items : List String)
  | evidenceList (items : List EvidenceItem)
deriving DecidableEq

/-- One rendered `Card` section: its title, the optional badge rendered
at its right, and its body blocks in document order. -/
structure RCard where
  title : String
  right : Option Block
  body : List Block
deriving DecidableEq

/-- Result renderer of the second `page.tsx` variant (lines 643-748):
the card sections produced for a present result, with styling dropped.
The Why list and the two nice-to-have sub-blocks appear only when their
array is non-empty; the "Risk flags" card appears only when
`risk_flags` is non-empty; all other cards and blocks are
unconditional. -/
def renderPageB (r : AiResult) : List RCard :=
  [ { title := "Verdict",
      right := some (.badge ("Fit: " ++ r.fit_level.label) (fitTone (some r))),
      body :=
        [ .badge ("Suitable: " ++ (if r.suitable then "Yes" else "No"))
            (if r.suitable then .good else .bad),
          .badge ("Confidence: " ++ r.confidence.label) .neutral,
          .badge ("Recommendation: " ++ r.screening_recommendation.label) .neutral,
          .heading "Final verdict", .para r.final_verdict ]
        ++ (if decide (0 < r.final_why.length) then
              [.heading "Why", .strList r.final_why] else [])
        ++ [ .heading "Summary", .para r.summary ] },
    { title := "Matched Required", right := none,
      body := [.strList r.matched_required_skills]
        ++ (if decide (0 < r.matched_nice_to_have.length) then
              [.heading "Matched Nice-to-have", .strList r.matched_nice_to_have]
            else []) },
    { title := "Missing Required", right := none,
      body := [.strList r.missing_required_skills]
        ++ (if decide (0 < r.missing_nice_to_have.length) then
              [.heading "Missing Nice-to-have", .strList r.missing_nice_to_have]
            else []) } ]
  ++ (if decide (0 < r.risk_flags.length) then
        [{ title := "Risk flags", right := none, body := [.strList r.risk_flags] }]
      else [])
  ++ [ { title := "Evidence", right := none, body := [.evidenceList r.evidence] },
       { title := "Interview focus areas", right := none,
         body := [.strList r.interview_focus_areas] } ]

/-- Result renderer of the second `part_000` variant (lines 670-680):
for a present result it renders only the Verdict card, holding the fit
badge and the final verdict paragraph. -/
def renderPart0B (r : AiResult) : List RCard :=
  [ { title := "Verdict",
      right := some (.badge ("Fit: " ++ r.fit_level.label) (fitTone (some r))),
      body := [ .para r.final_verdict ] } ]

/-- Field lookup in a JSON object (TypeScript property access). -/
def Json.getField (j : Json) (k : String) : Option Json :=
  match j with
  | .obj fields => fields.lookup k
  | _ => none

/-- The named field exists and is a JSON string. -/
def strField (j : Json) (k : String) : Bool :=
  match j.getField k with
  | some (.str _) => true
  | _ => false

/-- The named field exists and is a JSON boolean. -/
def boolField (j : Json) (k : String) : Bool :=
  match j.getField k with
  | some (.bool _) => true
  | _ => false

/-- The named field exists and is an array of JSON strings. -/
def strArrField (j : Json) (k : String) : Bool :=
  match j.getField k with
  | some (.arr xs) => xs.all (fun x => match x with | .str _ => true | _ => false)
  | _ => false

/-- The named field exists and is a string drawn from the given union
of literals. -/
def strUnionField (j : Json) (k : String) (vals : List String) : Bool :=
  match j.getField k with
  | some (.str s) => vals.contains s
  | _ => false

/-- A JSON value shaped like one evidence item. -/
def evidenceShaped (j : Json) : Bool :=
  strField j "claim" && strField j "snippet"

/-- A JSON value structurally conforming to the `AiResult` TypeScript
type (extra fields ignored, as TypeScript structural typing does). -/
def shapedLikeAiResult (j : Json) : Bool :=
  strUnionField j "fit_level" ["Strong", "Medium", "Low"] &&
  boolField j "suitable" &&
  strUnionField j "confidence" ["High", "Medium", "Low"] &&
  strField j "summary" &&
  strArrField j "matched_required_skills" &&
  strArrField j "missing_required_skills" &&
  strArrField j "matched_nice_to_have" &&
  strArrField j "missing_nice_to_have" &&
  strArrField j "risk_flags" &&
  (match j.getField "evidence" with
   | some (.arr xs) => xs.all evidenceShaped
   | _ => false) &&
  strUnionField j "screening_recommendation"
    ["Proceed to technical interview", "Recruiter screen only", "Reject"] &&
  strArrField j "interview_focus_areas" &&
  strField j "final_verdict" &&
  strArrField j "final_why"

/-! ## Helper lemmas -/

theorem string_length_pos_iff (t : String) : 0 < t.length ↔ t ≠ "" := by
  rw [Nat.pos_iff_ne_zero]
  constructor
  · intro h he
    subst he
    exact h rfl
  · intro hne hl
    apply hne
    cases t with
    | mk data =>
      have hd : data.length = 0 := hl
      have : data = [] := List.eq_nil_of_length_eq_zero hd
      subst this
      rfl

theorem canAnalyze_iff (s : St) :
    canAnalyze s = true ↔
      jsTrim s.title ≠ "" ∧ s.file.isSome = true ∧ s.loading = false := by
  simp [canAnalyze, string_length_pos_iff, and_assoc]

theorem canAnalyze_file_isSome {s : St} (h : canAnalyze s = true) :
    s.file.isSome = true :=
  ((canAnalyze_iff s).mp h).2.1

theorem canAnalyze_trim_ne {s : St} (h : canAnalyze s = true) :
    jsTrim s.title ≠ "" :=
  ((canAnalyze_iff s).mp h).1

/-! ## Claim theorems -/

/-- Claim C1: for every candidate file, the validators `handleFile` and
`onPickFile` accept it if and only if its declared media type is exactly
"application/pdf" or its lowercased filename ends with ".pdf";
otherwise they reject it with their fixed human-readable reason. -/
theorem c1_validate_accepts_iff_pdf (s : St) (f : FileRef) :
    handleFile s (some f)
        = (if f.type == "application/pdf" || jsEndsWith (jsToLower f.name) ".pdf" then
             { s with error := none, file := some f }
           else
             { s with error := some "Please upload a PDF file." })
    ∧ onPickFile s (some f)
        = (if f.type == "application/pdf" || jsEndsWith (jsToLower f.name) ".pdf" then
             { s with error := none, file := some f }
           else
             { s with error := some "Please select a PDF file." }) := by
  cases h1 : f.type == "application/pdf" <;>
    cases h2 : jsEndsWith (jsToLower f.name) ".pdf" <;>
      simp_all [handleFile, onPickFile]

/-- Claim C2: the derived gate `canAnalyze` is true if and only if the
trimmed title is non-empty, an accepted file is present, and the
request is not submitting (`loading` is false). -/
theorem c2_canSubmit_iff (s : St) :
    canAnalyze s = true ↔
      jsTrim s.title ≠ "" ∧ s.file ≠ none ∧ s.loading = false := by
  rw [canAnalyze_iff]
  simp [Option.isSome_iff_ne_none]

/-! ## Concrete fixtures -/

/-- A PDF file reference. -/
def resumePdf : FileRef := { name := "resume.pdf", type := "application/pdf" }

/-- A non-PDF candidate file. -/
def notesDocx : FileRef := { name := "notes.docx", type := "text/plain" }

/-- A state with a previously accepted file and no error. -/
def sReady : St :=
  { title := "QA Engineer", description := "5 years of QA",
    file := some resumePdf, result := none, loading := false, error := none }

/-- A state where the gate is false (no file) while an error message and
a stale result are held. -/
def sBlocked : St :=
  { title := "QA Engineer", description := "",
    file := none, result := some (Json.str "old"),
    loading := false, error := some "Please select a PDF file." }

/-- Claim C4, evaluation at the failing input: both validators reject a
non-PDF candidate yet keep the previously accepted file selected; the
spec mandates that rejection clears the selection. -/
theorem c4_reject_keeps_previous_file :
    (handleFile sReady (some notesDocx)).file = some resumePdf
    ∧ (handleFile sReady (some notesDocx)).error = some "Please upload a PDF file."
    ∧ (onPickFile sReady (some notesDocx)).file = some resumePdf
    ∧ (onPickFile sReady (some notesDocx)).error = some "Please select a PDF file." := by
  refine ⟨rfl, rfl, rfl, rfl⟩

/-- Claim C6, counterexample: in the second `part_000` variant, calling
`analyze` while the gate is false still clears the previously stored
error and result, so the call is not free of state changes. -/
theorem c6_counterexample_gated_call_clears_state :
    canAnalyze sBlocked = false
    ∧ (analyzePart0B sBlocked (Outcome.networkError "x")).request = none
    ∧ sBlocked.error = some "Please select a PDF file."
    ∧ (analyzePart0B sBlocked (Outcome.networkError "x")).final.error ≠ sBlocked.error
    ∧ sBlocked.result.isSome = true
    ∧ (analyzePart0B sBlocked (Outcome.networkError "x")).final.result = none := by
  refine ⟨rfl, rfl, rfl, by decide, rfl, rfl⟩

/-- Claim C6 as amended: a gated-out `analyze` call never issues a
request and never enters the submitting state; in the first `page.tsx`
variant and the first `part_000` variant it changes nothing at all,
while in the second `part_000` variant it clears the prior error and
result before returning. -/
theorem c6_amended_gated_call (s : St) (out : Outcome)
    (h : canAnalyze s = false) :
    analyzePageA s out = { request := none, inflight := s, final := s }
    ∧ analyzePart0A s out = { request := none, inflight := s, final := s }
    ∧ (analyzePart0B s out).request = none
    ∧ (analyzePart0B s out).final = { s with error := none, result := none } := by
  refine ⟨?_, ?_, ?_, ?_⟩ <;> simp [analyzePageA, analyzePart0A, analyzePart0B, h]

/-- Witness for the amended claim C6 at a concrete gated-out state. -/
theorem c6_amended_gated_call_witness :
    analyzePageA sBlocked (Outcome.networkError "x")
      = { request := none, inflight := sBlocked, final := sBlocked }
    ∧ (analyzePart0B sBlocked (Outcome.networkError "x")).final
      = { sBlocked with error := none, result := none } := by
  have h := c6_amended_gated_call sBlocked (Outcome.networkError "x") (by decide)
  exact ⟨h.1, h.2.2.2⟩

theorem canAnalyze_dest {s : St} (h : canAnalyze s = true) :
    ∃ f, s.file = some f ∧ (jsTrim s.title == "") = false ∧ s.loading = false := by
  obtain ⟨hne, hsome, hload⟩ := (canAnalyze_iff s).mp h
  obtain ⟨f, hf⟩ := Option.isSome_iff_exists.mp hsome
  exact ⟨f, hf, beq_eq_false_iff_ne.mpr hne, hload⟩

/-- The HTTP outcome of the spec example: status 422 with body text
"Unsupported file" (the body is not valid JSON, so `res.json()` would
throw, which a non-ok branch never reaches). -/
def out422 : Outcome :=
  Outcome.response 422 "Unsupported file" (Except.error "Unexpected token U")

/-- Claim C3, counterexample: in the first `part_000` variant a 422
response with non-empty body "Unsupported file" is surfaced as the fixed
message "Analyze request failed", not as the body text. -/
theorem c3_counterexample_fixed_message :
    canAnalyze sReady = true
    ∧ (analyzePart0A sReady out422).final.error = some "Analyze request failed"
    ∧ (analyzePart0A sReady out422).final.error ≠ some "Unsupported file" := by
  refine ⟨rfl, rfl, by decide⟩

/-- Claim C3 as amended: for a submit that issues a request and receives
a non-ok response, the Failed message is the response body text when
non-empty in three of the four variants, with fallback "Request failed"
in the first `page.tsx` variant and `HTTP <status>` in the two renderer
variants, while the first `part_000` variant always reports the fixed
"Analyze request failed"; a non-HTTP failure surfaces the message of the
network error in every variant. -/
theorem c3_amended_failure_messages (s : St) (status : Nat) (body : String)
    (j : Except String Json) (m : String)
    (h : canAnalyze s = true) (hnok : isOk status = false) :
    (analyzePageA s (Outcome.response status body j)).final.error
        = some (if body == "" then "Request failed" else body)
    ∧ (analyzePageB s (Outcome.response status body j)).final.error
        = some (if body == "" then "HTTP " ++ toString status else body)
    ∧ (analyzePart0A s (Outcome.response status body j)).final.error
        = some "Analyze request failed"
    ∧ (analyzePart0B s (Outcome.response status body j)).final.error
        = some (if body == "" then "HTTP " ++ toString status else body)
    ∧ (analyzePageA s (Outcome.networkError m)).final.error = some m
    ∧ (analyzePageB s (Outcome.networkError m)).final.error = some m
    ∧ (analyzePart0A s (Outcome.networkError m)).final.error = some m
    ∧ (analyzePart0B s (Outcome.networkError m)).final.error = some m := by
  obtain ⟨f, hf, hne, hload⟩ := canAnalyze_dest h
  refine ⟨?_, ?_, ?_, ?_, ?_, ?_, ?_, ?_⟩ <;>
    simp [analyzePageA, analyzePageB, analyzePart0A, analyzePart0B, h, hf, hne, hnok]

/-- Witness for the amended claim C3: the 422 example on a concrete
ready state, in the variants that do surface the body text. -/
theorem c3_amended_failure_messages_witness :
    (analyzePageA sReady out422).final.error = some "Unsupported file"
    ∧ (analyzePart0A sReady out422).final.error = some "Analyze request failed" := by
  have h := c3_amended_failure_messages sReady 422 "Unsupported file"
    (Except.error "Unexpected token U") "Failed to fetch" (by decide) (by decide)
  exact ⟨h.1, h.2.2.1⟩

/-- An HTTP 200 outcome whose body is valid JSON but is not shaped like
`AiResult` (an empty JSON object). -/
def outWrongShape : Outcome :=
  Outcome.response 200 "irrelevant" (Except.ok (Json.obj []))

/-- Claim C7, counterexample: a 2xx response whose body decodes to the
empty JSON object, which is not shaped like `AiResult`, is stored as the
result with no error shown; the request ends in the succeeded state,
not in a failure. -/
theorem c7_counterexample_unvalidated_shape :
    (analyzePageB sReady outWrongShape).final.result = some (Json.obj [])
    ∧ (analyzePageB sReady outWrongShape).final.error = none
    ∧ (analyzePageA sReady outWrongShape).final.result = some (Json.obj [])
    ∧ (analyzePageA sReady outWrongShape).final.error = none
    ∧ shapedLikeAiResult (Json.obj []) = false := by
  refine ⟨rfl, rfl, rfl, rfl, rfl⟩

/-- Claim C7 as amended: a 2xx response whose body is not valid JSON
ends in a failure with a displayed message (the decode error is caught,
not a crash); a 2xx response whose body is valid JSON is stored as the
result without any shape validation, even when it is not shaped like
`AiResult`. -/
theorem c7_amended_decode_handling (s : St) (status : Nat) (body : String)
    (msg : String) (v : Json)
    (h : canAnalyze s = true) (hok : isOk status = true) :
    ((analyzePageA s (Outcome.response status body (Except.error msg))).final.error = some msg
     ∧ (analyzePageA s (Outcome.response status body (Except.error msg))).final.result = none
     ∧ (analyzePageA s (Outcome.response status body (Except.error msg))).final.loading = false)
    ∧ ((analyzePageB s (Outcome.response status body (Except.error msg))).final.error = some msg
     ∧ (analyzePageB s (Outcome.response status body (Except.error msg))).final.result = none
     ∧ (analyzePageB s (Outcome.response status body (Except.error msg))).final.loading = false)
    ∧ ((analyzePageA s (Outcome.response status body (Except.ok v))).final.result = some v
     ∧ (analyzePageA s (Outcome.response status body (Except.ok v))).final.error = none)
    ∧ ((analyzePageB s (Outcome.response status body (Except.ok v))).final.result = some v
     ∧ (analyzePageB s (Outcome.response status body (Except.ok v))).final.error = none) := by
  obtain ⟨f, hf, hne, hload⟩ := canAnalyze_dest h
  refine ⟨⟨?_, ?_, ?_⟩, ⟨?_, ?_, ?_⟩, ⟨?_, ?_⟩, ⟨?_, ?_⟩⟩ <;>
    simp [analyzePageA, analyzePageB, h, hf, hne, hok]

/-- Witness for the amended claim C7 at a concrete ready state. -/
theorem c7_amended_decode_handling_witness :
    (analyzePageA sReady (Outcome.response 200 "not json" (Except.error "Unexpected token o"))).final.error
      = some "Unexpected token o"
    ∧ (analyzePageB sReady (Outcome.response 200 "ok" (Except.ok (Json.obj [])))).final.result
      = some (Json.obj []) := by
  have h := c7_amended_decode_handling sReady 200 "not json" "Unexpected token o"
    (Json.obj []) (by decide) (by decide)
  have h2 := c7_amended_decode_handling sReady 200 "ok" "Unexpected token o"
    (Json.obj []) (by decide) (by decide)
  exact ⟨h.1.1, h2.2.2.2.1⟩

/-- A ready state that still holds a stale error from a failed request
(the Failed state about to be re-entered into Submitting). -/
def sStale : St :=
  { title := "QA Engineer", description := "",
    file := some resumePdf, result := none,
    loading := false, error := some "HTTP 500" }

/-- Claim C8: when `analyze` proceeds (gate true) from a state holding a
prior result or a prior error, both are cleared before the request is
issued: in the state observed while the request is in flight the result
and the error are gone and `loading` is set (the first `part_000`
variant declares no result hook, so only its error is concerned). -/
theorem c8_resubmit_clears_before_request (s : St) (out : Outcome)
    (h : canAnalyze s = true)
    (hprior : s.result.isSome = true ∨ s.error.isSome = true) :
    (analyzePageA s out).request.isSome = true
    ∧ (analyzePageA s out).inflight.result = none
    ∧ (analyzePageA s out).inflight.error = none
    ∧ (analyzePageA s out).inflight.loading = true
    ∧ (analyzePart0A s out).request.isSome = true
    ∧ (analyzePart0A s out).inflight.error = none
    ∧ (analyzePart0A s out).inflight.loading = true
    ∧ (analyzePart0B s out).request.isSome = true
    ∧ (analyzePart0B s out).inflight.result = none
    ∧ (analyzePart0B s out).inflight.error = none
    ∧ (analyzePart0B s out).inflight.loading = true := by
  obtain ⟨f, hf, hne, hload⟩ := canAnalyze_dest h
  refine ⟨?_, ?_, ?_, ?_, ?_, ?_, ?_, ?_, ?_, ?_, ?_⟩ <;>
    simp [analyzePageA, analyzePart0A, analyzePart0B, h, hf]

/-- Witness for claim C8 at a concrete Failed state being
re-submitted. -/
theorem c8_resubmit_clears_before_request_witness :
    (analyzePageA sStale (Outcome.networkError "x")).inflight.error = none
    ∧ (analyzePart0B sStale (Outcome.networkError "x")).inflight.error = none := by
  have h := c8_resubmit_clears_before_request sStale (Outcome.networkError "x")
    (by decide) (Or.inr (by decide))
  exact ⟨h.2.2.1, h.2.2.2.2.2.2.2.2.2.1⟩

/-- Claim C9: whenever `analyze` proceeds past the gate, the outbound
request body is a multipart form with exactly three parts, in order:
`position_title` holding the trimmed title, `position_description`
holding the raw description, and `cv_pdf` holding the accepted file. -/
theorem c9_request_is_three_part_form (s : St) (f : FileRef) (out : Outcome)
    (hf : s.file = some f) (h : canAnalyze s = true) :
    (analyzePageA s out).request
        = some [("position_title", FormPart.text (jsTrim s.title)),
                ("position_description", FormPart.text s.description),
                ("cv_pdf", FormPart.binary f)]
    ∧ (analyzePart0A s out).request
        = some [("position_title", FormPart.text (jsTrim s.title)),
                ("position_description", FormPart.text s.description),
                ("cv_pdf", FormPart.binary f)]
    ∧ (analyzePart0B s out).request
        = some [("position_title", FormPart.text (jsTrim s.title)),
                ("position_description", FormPart.text s.description),
                ("cv_pdf", FormPart.binary f)] := by
  refine ⟨?_, ?_, ?_⟩ <;> simp [analyzePageA, analyzePart0A, analyzePart0B, h, hf]

/-- Witness for claim C9 at a concrete ready state. -/
theorem c9_request_is_three_part_form_witness :
    (analyzePageA sReady (Outcome.networkError "x")).request
      = some [("position_title", FormPart.text (jsTrim sReady.title)),
              ("position_description", FormPart.text sReady.description),
              ("cv_pdf", FormPart.binary resumePdf)] :=
  (c9_request_is_three_part_form sReady resumePdf (Outcome.networkError "x")
    rfl (by decide)).1

/-- Claim C10: every `analyze` call that issues a request ends with
`loading` false, whatever the outcome (success, HTTP error, network
failure, or decode failure): the finally block always runs. -/
theorem c10_loading_false_after_resolution (s : St) (out : Outcome)
    (h : canAnalyze s = true) :
    (analyzePageA s out).request.isSome = true
    ∧ (analyzePageA s out).final.loading = false
    ∧ (analyzePart0A s out).request.isSome = true
    ∧ (analyzePart0A s out).final.loading = false := by
  obtain ⟨f, hf, hne, hload⟩ := canAnalyze_dest h
  refine ⟨?_, ?_, ?_, ?_⟩ <;> simp [analyzePageA, analyzePart0A, h, hf]

/-- Witness for claim C10 at a concrete ready state with a failing
outcome. -/
theorem c10_loading_false_after_resolution_witness :
    (analyzePageA sReady out422).final.loading = false
    ∧ (analyzePart0A sReady (Outcome.networkError "x")).final.loading = false := by
  have h1 := c10_loading_false_after_resolution sReady out422 (by decide)
  have h2 := c10_loading_false_after_resolution sReady
    (Outcome.networkError "x") (by decide)
  exact ⟨h1.2.1, h2.2.2.2⟩

/-- A full analysis result with non-empty required sections and empty
optional sections. -/
def rFull : AiResult :=
  { fit_level := .Strong, suitable := true, confidence := .High,
    summary := "Strong candidate",
    matched_required_skills := ["Python"],
    missing_required_skills := [],
    matched_nice_to_have := [],
    missing_nice_to_have := [],
    risk_flags := [],
    evidence := [{ claim := "Led QA team", snippet := "led a team of four QA engineers" }],
    screening_recommendation := .proceedToTechnicalInterview,
    interview_focus_areas := ["automation frameworks"],
    final_verdict := "Hire",
    final_why := [] }

/-- Claim C5, counterexample: the reduced renderer of the second
`part_000` variant shows only the verdict card, omitting the summary,
the skills, the evidence, and the interview focus areas even though
those fields are non-empty in this result. -/
theorem c5_counterexample_reduced_renderer :
    renderPart0B rFull
      = [ { title := "Verdict",
            right := some (Block.badge "Fit: Strong" Tone.good),
            body := [Block.para "Hire"] } ]
    ∧ rFull.summary = "Strong candidate"
    ∧ rFull.evidence ≠ []
    ∧ rFull.interview_focus_areas ≠ [] := by
  refine ⟨rfl, rfl, by decide, by decide⟩

/-- Claim C5 as amended: in the full renderer of the second `page.tsx`
variant, the optional sections (nice-to-have matches and misses, risk
flags) appear exactly when their sequence is non-empty, while the
required sections (summary, final verdict, matched and missing required
skills, evidence, interview focus areas) are always rendered, possibly
as empty lists; the reduced renderer of the second `part_000` variant
renders only the verdict card. -/
theorem c5_amended_sections (r : AiResult) :
    ((renderPageB r).map RCard.title
        = ["Verdict", "Matched Required", "Missing Required"]
          ++ (if r.risk_flags = [] then [] else ["Risk flags"])
          ++ ["Evidence", "Interview focus areas"])
    ∧ (∃ c ∈ renderPageB r, c.title = "Verdict"
          ∧ Block.heading "Summary" ∈ c.body ∧ Block.para r.summary ∈ c.body
          ∧ Block.para r.final_verdict ∈ c.body)
    ∧ (∃ c ∈ renderPageB r, c.title = "Matched Required"
          ∧ Block.strList r.matched_required_skills ∈ c.body)
    ∧ (∃ c ∈ renderPageB r, c.title = "Missing Required"
          ∧ Block.strList r.missing_required_skills ∈ c.body)
    ∧ (∃ c ∈ renderPageB r, c.title = "Evidence"
          ∧ Block.evidenceList r.evidence ∈ c.body)
    ∧ (∃ c ∈ renderPageB r, c.title = "Interview focus areas"
          ∧ Block.strList r.interview_focus_areas ∈ c.body)
    ∧ ((∃ c ∈ renderPageB r, Block.heading "Matched Nice-to-have" ∈ c.body)
          ↔ r.matched_nice_to_have ≠ [])
    ∧ ((∃ c ∈ renderPageB r, Block.heading "Missing Nice-to-have" ∈ c.body)
          ↔ r.missing_nice_to_have ≠ [])
    ∧ ((∃ c ∈ renderPageB r, c.title = "Risk flags") ↔ r.risk_flags ≠ [])
    ∧ (renderPart0B r).map RCard.title = ["Verdict"] := by
  by_cases h1 : r.final_why = [] <;> by_cases h2 : r.matched_nice_to_have = [] <;>
    by_cases h3 : r.missing_nice_to_have = [] <;> by_cases h4 : r.risk_flags = [] <;>
      simp [renderPageB, renderPart0B, h1, h2, h3, h4, List.length_pos]
